import Mathlib

/-!
Shallow embedding of HiDPI.js (src/hidpi.js) and its waypoint scheduler
(src/lib/zg.waypoints.js), with theorems settling the spec claims.

Pixel coordinates and sizes are modelled as rationals (`ℚ`): the JS numbers
involved are produced by layout queries and multiplied by the fractional
margin 0.1, and no floating-point rounding is relevant to any claim.
-/

/-- The window as seen by `jQuery( window )`: `scrollTop()` and `height()`. -/
structure WindowView where
  scrollTop : ℚ
  height : ℚ
deriving DecidableEq

/-- JavaScript `x || d` applied to an optional numeric argument: an absent
argument and the (falsy) number `0` both select the default `d`. -/
def jsFalsyOr (x : Option ℚ) (d : ℚ) : ℚ :=
  match x with
  | none => d
  | some v => if v = 0 then d else v

namespace ZG_Waypoints

/-- `ZG_Waypoints.inView( elementTop, elementBottom, viewMargin )`.
`viewMargin = viewMargin || 0.1`; `viewTop = scrollTop`; `viewBottom =
viewTop + height`; the margin is then `height * viewMargin`, and the result is
true iff the element's top or bottom lies in `[viewTop + margin, viewBottom - margin]`. -/
def inView (v : WindowView) (elementTop elementBottom : ℚ)
    (viewMarginArg : Option ℚ) : Bool :=
  let viewMargin := jsFalsyOr viewMarginArg (1/10)
  let viewTop := v.scrollTop
  let viewBottom := viewTop + v.height
  let margin := v.height * viewMargin
  (decide (elementTop ≥ viewTop + margin) && decide (elementTop ≤ viewBottom - margin)) ||
  (decide (elementBottom ≥ viewTop + margin) && decide (elementBottom ≤ viewBottom - margin))

/-- One entry of `ZG_Waypoints.waypoints`, built by `ZG_Waypoints.add`.
The callback and its bound arguments are modelled by an identifier `id` that is
emitted when the callback fires; `hasCallback` models the truthiness test
`if ( waypoint.callback )` in `update`. -/
structure Waypoint where
  id : Nat
  top : ℚ
  bottom : ℚ
  oneShot : Bool
  hasCallback : Bool
deriving DecidableEq

/-- The `while ( i-- )` loop of `ZG_Waypoints.update`: indices are visited from
the last registered waypoint down to the first, each in-view waypoint with a
callback fires, and an in-view `oneShot` waypoint is spliced out (splicing at
the current index only shifts already-visited positions, so every original
element is visited exactly once).  Returns the fired callback ids, in firing
order, and the surviving waypoint list. -/
def updateLoop (v : WindowView) : List Waypoint → List Nat × List Waypoint
  | [] => ([], [])
  | w :: ws =>
    let r := updateLoop v ws
    if inView v w.top w.bottom none then
      (r.1 ++ (if w.hasCallback then [w.id] else []),
       if w.oneShot then r.2 else w :: r.2)
    else
      (r.1, w :: r.2)

/-- Global scheduler state: the pending waypoint list plus whether
`ZG_Waypoints.update` is currently registered on the window's scroll event. -/
structure SchedulerState where
  waypoints : List Waypoint
  subscribed : Bool
deriving DecidableEq

/-- `ZG_Waypoints.add`: push the new waypoint and register the scroll handler. -/
def add (top bottom : ℚ) (oneShot hasCallback : Bool) (id : Nat)
    (s : SchedulerState) : SchedulerState :=
  { waypoints := s.waypoints ++ [⟨id, top, bottom, oneShot, hasCallback⟩],
    subscribed := true }

/-- `ZG_Waypoints.update`: run the loop, then
`if ( ! ZG_Waypoints.waypoints.length ) { jQuery( window ).off( "scroll", ... ) }`. -/
def update (v : WindowView) (s : SchedulerState) : List Nat × SchedulerState :=
  let r := updateLoop v s.waypoints
  (r.1, { waypoints := r.2,
          subscribed := if r.2.isEmpty then false else s.subscribed })

/-- A sequence of direct `update` calls, at the given viewport positions;
returns all fired callback ids in order, and the final state. -/
def runUpdates : List WindowView → SchedulerState → List Nat × SchedulerState
  | [], s => ([], s)
  | v :: vs, s =>
    let r := update v s
    let rest := runUpdates vs r.2
    (r.1 ++ rest.1, rest.2)

/-- A scroll event: the browser invokes `ZG_Waypoints.update` only while it is
registered as a scroll handler. -/
def scrollEvent (v : WindowView) (s : SchedulerState) : List Nat × SchedulerState :=
  if s.subscribed then update v s else ([], s)

/-- A sequence of scroll events. -/
def runScrolls : List WindowView → SchedulerState → List Nat × SchedulerState
  | [], s => ([], s)
  | v :: vs, s =>
    let r := scrollEvent v s
    let rest := runScrolls vs r.2
    (r.1 ++ rest.1, rest.2)

end ZG_Waypoints

/-! ## Image substitution controller (src/hidpi.js) -/

/-- `HIDPI_BREAKPOINT = 1024`: elements beyond this width get substituted. -/
def HIDPI_BREAKPOINT : ℚ := 1024

/-- `CROSSFADE_TIME = 700`: duration of the overlay crossfade, in ms. -/
def CROSSFADE_TIME : ℚ := 700

/-- The `PRELOAD_SCHEME` configuration strings `"lazy"`, `"queued"`, `"immediate"`. -/
inductive PreloadScheme
  | lazy
  | queued
  | immediate
deriving DecidableEq

/-- The compiled-in value: `PRELOAD_SCHEME = "lazy"`. -/
def PRELOAD_SCHEME : PreloadScheme := PreloadScheme.lazy

/-- jQuery `hasClass`: membership in the element's class list. -/
def hasClass (cs : List String) (c : String) : Bool :=
  decide (c ∈ cs)

/-- jQuery `addClass` with a single class token: appended unless present. -/
def addClass (cs : List String) (c : String) : List String :=
  if c ∈ cs then cs else cs ++ [c]

/-- jQuery `removeClass` with a single class token: all occurrences dropped. -/
def removeClass (cs : List String) (c : String) : List String :=
  cs.filter (fun x => x != c)

/-- A DOM element as far as hidpi.js observes and mutates it: tag name, layout
metrics, class list, `src` attribute, `data-hidpi-src` attribute, own CSS
`position`, and CSS background. -/
structure Elem where
  tagName : String
  width : ℚ
  offsetTop : ℚ
  height : ℚ
  classes : List String
  srcAttr : Option String
  dataHidpiSrc : Option String
  cssPosition : String
  background : Option String
deriving DecidableEq

/-- `preloadHiDPIImage( $item )`: strips the queued/pending markers, adds
`hidpi-loading`, wires `hiDPILoaded`/`hiDPIError` onto a detached image
loader, and sets the loader's `src` to `$item.data( "hidpi-src" )`.  Returns
the mutated element together with the URL the fetch was started on. -/
def preloadHiDPIImage (item : Elem) : Elem × Option String :=
  ({ item with classes := (addClass
      (removeClass (removeClass item.classes "hidpi-queued") "hidpi-pending")
      "hidpi-loading") },
   item.dataHidpiSrc)

/-- What one pass of `checkForHiDPIElements` did to a given element: left it
alone, started the preload fetch (carrying the requested URL), or registered a
`oneShot` waypoint at the given coordinates with `preloadHiDPIImage` as
callback. -/
inductive ScanEffect
  | skip
  | load (src : Option String)
  | defer (top bottom : ℚ)
deriving DecidableEq

/-- The per-element body of `checkForHiDPIElements()`: the jQuery selection
`$( ".hidpi-ready" )` filtered by `width() > HIDPI_BREAKPOINT` models as the
outer condition; a selected element has its `hidpi-ready` class removed, then
is either preloaded at once (immediate scheme, or already in view), left for
the unimplemented queued scheme, or marked `hidpi-pending` and registered with
`ZG_Waypoints.add( top, bottom, preloadHiDPIImage, { oneShot : true }, $item )`. -/
def checkForHiDPIElement (scheme : PreloadScheme) (v : WindowView) (item : Elem) :
    Elem × ScanEffect :=
  if hasClass item.classes "hidpi-ready" && decide (item.width > HIDPI_BREAKPOINT) then
    let item1 := { item with classes := removeClass item.classes "hidpi-ready" }
    let top := item1.offsetTop
    let bottom := top + item1.height
    if scheme = PreloadScheme.immediate || ZG_Waypoints.inView v top bottom none then
      let r := preloadHiDPIImage item1
      (r.1, ScanEffect.load r.2)
    else if scheme = PreloadScheme.queued then
      (item1, ScanEffect.skip)
    else
      ({ item1 with classes := addClass item1.classes "hidpi-pending" },
       ScanEffect.defer top bottom)
  else
    (item, ScanEffect.skip)

/-- `checkForHiDPIElements()` over the whole document: the per-element body
applied to every element. -/
def checkForHiDPIElements (scheme : PreloadScheme) (v : WindowView)
    (items : List Elem) : List (Elem × ScanEffect) :=
  items.map (checkForHiDPIElement scheme v)

/-- Repeated `checkForHiDPIElements()` passes over one element, at the given
sequence of viewport positions (script load, DOM polls, DOMReady, debounced
resizes).  Returns the final element and each pass's effect, in order. -/
def scanElemRepeat (scheme : PreloadScheme) : List WindowView → Elem → Elem × List ScanEffect
  | [], item => (item, [])
  | v :: vs, item =>
    let r := checkForHiDPIElement scheme v item
    let rest := scanElemRepeat scheme vs r.1
    (rest.1, r.2 :: rest.2)

/-- The one failure the library models: a thrown JavaScript `TypeError`. -/
inductive JsError
  | typeError (message : String)
deriving DecidableEq

/-- A JavaScript value as handled inside `hiDPILoaded`: a jQuery wrapper of an
element, a bare method reference (the function object itself, as produced by
`$item.parent` written without call parentheses), or `undefined`. -/
inductive JQVal
  | elem (e : Elem)
  | methodRef (name : String)
deriving DecidableEq

/-- Evaluate `v.css( prop )`.  A jQuery object answers from the element's
style; on a bare function value the member `css` does not exist
(`undefined`), and invoking it throws a `TypeError`. -/
def jqCss (v : JQVal) (prop : String) : Except JsError String :=
  match v with
  | JQVal.elem e =>
      Except.ok (if prop = "position" then e.cssPosition
                 else if prop = "background" then e.background.getD "" else "")
  | JQVal.methodRef _ => Except.error (JsError.typeError "css is not a function")

/-- Evaluate `v.css( "position", val )` (the setter form); throws identically
on a non-jQuery value. -/
def jqCssSetPosition (v : JQVal) (val : String) : Except JsError JQVal :=
  match v with
  | JQVal.elem e => Except.ok (JQVal.elem { e with cssPosition := val })
  | JQVal.methodRef _ => Except.error (JsError.typeError "css is not a function")

/-- The overlay node built by `hiDPILoaded`: either a clone of the IMG (with
the clone/overlay marker classes, inserted after the original) or a fresh
`<div class="hidpi-overlay">` sized to the container and prepended into it. -/
structure OverlayInfo where
  fromClone : Bool
  classes : List String
  cssPosition : String
  widthPx : Option ℚ
  heightPx : Option ℚ
  background : Option String
  insertedAfterItem : Bool
deriving DecidableEq

/-- The observable result of a completed `hiDPILoaded` run: the mutated
element, the overlay that was inserted, and the `fadeOut` duration scheduled
with `hiDPIAnimationComplete` as completion callback. -/
structure LoadedOutcome where
  item : Elem
  overlay : OverlayInfo
  fadeOutMs : ℚ
deriving DecidableEq

/-- `hiDPILoaded( event )`, the image-load success handler.  The source begins
with `var $parent = $item.parent` — written without call parentheses — so
`$parent` holds the jQuery `parent` *method itself*, not the parent element.
The IMG branch immediately evaluates `$parent.css( "position" )`, which throws
a `TypeError` (`css` is not a member of a function value); the rest of that
branch is transcribed from the source but is unreachable as written.  The
background-image branch never touches `$parent` and completes normally. -/
def hiDPILoaded (loadedSrc : String) (item : Elem) : Except JsError LoadedOutcome :=
  let parent : JQVal := JQVal.methodRef "parent"
  if item.tagName = "IMG" then
    match jqCss parent "position" with
    | Except.error err => Except.error err
    | Except.ok parentPos =>
      match (if parentPos = "static"
             then jqCssSetPosition parent "relative"
             else Except.ok parent) with
      | Except.error err => Except.error err
      | Except.ok _ =>
        let item1 := { item with classes := removeClass item.classes "hidpi-loading" }
        let overlay : OverlayInfo :=
          { fromClone := true
            classes := addClass (addClass item1.classes "hidpi-clone") "hidpi-overlay"
            cssPosition := "absolute"
            widthPx := none
            heightPx := none
            background := none
            insertedAfterItem := true }
        let item2 := { item1 with srcAttr := some loadedSrc }
        let item3 := { item2 with
          classes := addClass (addClass item2.classes "hidpi-animating") "hidpi-loaded"
          dataHidpiSrc := none }
        Except.ok { item := item3, overlay := overlay, fadeOutMs := CROSSFADE_TIME }
  else
    let item1 := if item.cssPosition = "static"
                 then { item with cssPosition := "relative" } else item
    let overlay : OverlayInfo :=
      { fromClone := false
        classes := ["hidpi-overlay"]
        cssPosition := "absolute"
        widthPx := some item1.width
        heightPx := some item1.height
        background := item1.background
        insertedAfterItem := false }
    let item2 := { item1 with
      background := some ("url(" ++ loadedSrc ++ ")")
      classes := removeClass item1.classes "hidpi-loading" }
    let item3 := { item2 with
      classes := addClass (addClass item2.classes "hidpi-animating") "hidpi-loaded"
      dataHidpiSrc := none }
    Except.ok { item := item3, overlay := overlay, fadeOutMs := CROSSFADE_TIME }

/-- `hiDPIError( event )`, the image-load failure handler:
`$item.removeClass( "hidpi-processing" ).addClass( "hidpi-error" )`.
Note the removed token is `hidpi-processing`, a class no other code path ever
adds — the class actually added at load start is `hidpi-loading`. -/
def hiDPIError (item : Elem) : Elem :=
  { item with classes := addClass (removeClass item.classes "hidpi-processing") "hidpi-error" }

/-- The five lifecycle-state markers of the spec's per-element state machine. -/
def lifecycleClasses : List String :=
  ["hidpi-ready", "hidpi-pending", "hidpi-loading", "hidpi-loaded", "hidpi-error"]

/-- How many lifecycle-state markers an element currently carries. -/
def lifecycleCount (cs : List String) : Nat :=
  (lifecycleClasses.filter (fun c => hasClass cs c)).length

/-! ## Concrete fixtures used by witnesses and counterexamples -/

/-- An IMG element in the `loading` state whose parent is statically
positioned, about to receive its load event. -/
def imgElemLoading : Elem :=
  { tagName := "IMG", width := 1200, offsetTop := 0, height := 500,
    classes := ["hidpi-loading"], srcAttr := some "low.jpg",
    dataHidpiSrc := some "hi.jpg", cssPosition := "static", background := none }

/-- A background-image container in the `loading` state, about to receive its
error event. -/
def divElemLoading : Elem :=
  { tagName := "DIV", width := 1200, offsetTop := 0, height := 500,
    classes := ["hidpi-loading"], srcAttr := none,
    dataHidpiSrc := some "hi.jpg", cssPosition := "static",
    background := some "url(low.jpg)" }

/-- An element still in the `ready` state, wider than the breakpoint. -/
def imgElemReady : Elem :=
  { tagName := "IMG", width := 1200, offsetTop := 20, height := 30,
    classes := ["hidpi-ready"], srcAttr := some "low.jpg",
    dataHidpiSrc := some "hi.jpg", cssPosition := "static", background := none }

/-- An element in the `ready` state, narrower than the breakpoint. -/
def imgElemNarrow : Elem :=
  { tagName := "IMG", width := 800, offsetTop := 20, height := 30,
    classes := ["hidpi-ready"], srcAttr := some "low.jpg",
    dataHidpiSrc := some "hi.jpg", cssPosition := "static", background := none }

/-- A viewport at scroll offset 0 with a 100px-high window; its 10% margin
shrinks the in-view band to `[10, 90]`. -/
def view0 : WindowView := ⟨0, 100⟩

/-- A one-shot waypoint with callback id 7 spanning `[20, 30]`. -/
def wp7 : ZG_Waypoints.Waypoint := ⟨7, 20, 30, true, true⟩

/-- A scheduler holding only `wp7`, subscribed to scroll. -/
def sched7 : ZG_Waypoints.SchedulerState := ⟨[wp7], true⟩

/-- Two plain waypoints registered in the order id 1 then id 2, both in view
of `view0`. -/
def wpPair : List ZG_Waypoints.Waypoint := [⟨1, 20, 30, false, true⟩, ⟨2, 40, 50, false, true⟩]

/-! ## Class-list lemmas -/

theorem hasClass_addClass_self (cs : List String) (c : String) :
    hasClass (addClass cs c) c = true := by
  by_cases h : c ∈ cs <;> simp [hasClass, addClass, h]

theorem hasClass_removeClass_self (cs : List String) (c : String) :
    hasClass (removeClass cs c) c = false := by
  simp [hasClass, removeClass, List.mem_filter]

theorem hasClass_addClass_of_ne (cs : List String) (a b : String) (h : b ≠ a) :
    hasClass (addClass cs a) b = hasClass cs b := by
  by_cases hm : a ∈ cs <;> simp [hasClass, addClass, hm, List.mem_append, h]

theorem hasClass_removeClass_of_ne (cs : List String) (a b : String) (h : b ≠ a) :
    hasClass (removeClass cs a) b = hasClass cs b := by
  simp [hasClass, removeClass, List.mem_filter, h]

/-! ## Claim C2 -/

/-- C2: `inView( top, bottom )` (default margin) is true iff `top` or `bottom`
lies within `[viewTop + margin, viewBottom - margin]`, where `margin` is one
tenth of the window height; in particular it is false for a region whose top
is above and whose bottom is below the shrunk viewport. -/
theorem c2_inView_edge_overlap (v : WindowView) (t b : ℚ) :
    (ZG_Waypoints.inView v t b none = true ↔
      ((v.scrollTop + v.height * (1/10) ≤ t ∧
        t ≤ v.scrollTop + v.height - v.height * (1/10)) ∨
       (v.scrollTop + v.height * (1/10) ≤ b ∧
        b ≤ v.scrollTop + v.height - v.height * (1/10)))) ∧
    (t < v.scrollTop + v.height * (1/10) →
      v.scrollTop + v.height - v.height * (1/10) < b →
      ZG_Waypoints.inView v t b none = false) := by
  constructor
  · simp [ZG_Waypoints.inView, jsFalsyOr, ge_iff_le]
  · intro h1 h2
    simp only [ZG_Waypoints.inView, jsFalsyOr, Bool.or_eq_false_iff, Bool.and_eq_false_iff]
    constructor
    · left
      simpa using not_le.mpr h1
    · right
      simpa using not_le.mpr h2

/-- Witness for C2 at a concrete straddling region: the viewport is `[0,100]`,
shrunk to `[10, 90]`; the region `[-5, 200]` covers it entirely yet is not
detected. -/
theorem c2_witness : ZG_Waypoints.inView ⟨0, 100⟩ (-5) 200 none = false :=
  (c2_inView_edge_overlap ⟨0, 100⟩ (-5) 200).2 (by norm_num) (by norm_num)

/-! ## Claim C10 -/

/-- C10: passing an explicit margin fraction of `0` is indistinguishable from
omitting the argument, and both behave as the default fraction `0.1` — the
zero is discarded by the falsy test `viewMargin || 0.1`. -/
theorem c10_zero_margin_is_default (v : WindowView) (t b : ℚ) :
    ZG_Waypoints.inView v t b (some 0) = ZG_Waypoints.inView v t b none ∧
    ZG_Waypoints.inView v t b (some 0) = ZG_Waypoints.inView v t b (some (1/10)) := by
  constructor <;> norm_num [ZG_Waypoints.inView, jsFalsyOr]

/-! ## Waypoint update lemmas -/

theorem updateLoop_sublist (v : WindowView) (ws : List ZG_Waypoints.Waypoint) :
    ((ZG_Waypoints.updateLoop v ws).2).Sublist ws := by
  induction ws with
  | nil => simp [ZG_Waypoints.updateLoop]
  | cons w ws ih =>
    simp only [ZG_Waypoints.updateLoop]
    split
    · dsimp only
      split
      · exact ih.cons w
      · exact ih.cons₂ w
    · exact ih.cons₂ w

theorem updateLoop_count_le (v : WindowView) (k : Nat) (ws : List ZG_Waypoints.Waypoint)
    (hone : ∀ w ∈ ws, w.id = k → w.oneShot = true) :
    (ZG_Waypoints.updateLoop v ws).1.count k
      + (ZG_Waypoints.updateLoop v ws).2.countP (fun w => w.id == k)
      ≤ ws.countP (fun w => w.id == k) := by
  induction ws with
  | nil => simp [ZG_Waypoints.updateLoop]
  | cons w ws ih =>
    have ihh := ih (fun x hx => hone x (List.mem_cons_of_mem _ hx))
    simp only [ZG_Waypoints.updateLoop]
    by_cases hidk : w.id = k
    · have hos : w.oneShot = true := hone w (List.mem_cons_self _ _) hidk
      by_cases hv : ZG_Waypoints.inView v w.top w.bottom none = true
      · cases hcb : w.hasCallback <;>
          simp [hv, hos, hidk, List.count_append, List.countP_cons, List.count_cons] <;>
          omega
      · simp [hv, hidk, List.countP_cons]
        omega
    · by_cases hv : ZG_Waypoints.inView v w.top w.bottom none = true
      · cases hcb : w.hasCallback <;> cases hos : w.oneShot <;>
          simp [hv, hcb, hos, hidk, List.count_append, List.countP_cons, List.count_cons] <;>
          omega
      · simp [hv, hidk, List.countP_cons]
        omega

theorem runUpdates_count_le (k : Nat) (vs : List WindowView) (s : ZG_Waypoints.SchedulerState)
    (hone : ∀ w ∈ s.waypoints, w.id = k → w.oneShot = true) :
    (ZG_Waypoints.runUpdates vs s).1.count k
      + (ZG_Waypoints.runUpdates vs s).2.waypoints.countP (fun w => w.id == k)
      ≤ s.waypoints.countP (fun w => w.id == k) := by
  induction vs generalizing s with
  | nil => simp [ZG_Waypoints.runUpdates]
  | cons v vs ih =>
    have h1 := updateLoop_count_le v k s.waypoints hone
    have hone2 : ∀ w ∈ (ZG_Waypoints.update v s).2.waypoints, w.id = k → w.oneShot = true :=
      fun w hw => hone w ((updateLoop_sublist v s.waypoints).subset hw)
    have h2 := ih (ZG_Waypoints.update v s).2 hone2
    have hw : (ZG_Waypoints.update v s).2.waypoints = (ZG_Waypoints.updateLoop v s.waypoints).2 := rfl
    have hf : (ZG_Waypoints.update v s).1 = (ZG_Waypoints.updateLoop v s.waypoints).1 := rfl
    rw [hw] at h2
    simp only [ZG_Waypoints.runUpdates]
    rw [List.count_append, hf]
    omega

theorem updateLoop_removes_unique_oneShot (v : WindowView) (k : Nat)
    (ws : List ZG_Waypoints.Waypoint)
    (hcount : ws.countP (fun w => w.id == k) ≤ 1)
    (hone : ∀ w ∈ ws, w.id = k → w.oneShot = true)
    (hin : ∃ w ∈ ws, w.id = k ∧ ZG_Waypoints.inView v w.top w.bottom none = true) :
    ∀ w2 ∈ (ZG_Waypoints.updateLoop v ws).2, w2.id ≠ k := by
  induction ws with
  | nil => simp at hin
  | cons w ws ih =>
    obtain ⟨x, hx, hxk, hxv⟩ := hin
    by_cases hidk : w.id = k
    · have hc : (w :: ws).countP (fun x => x.id == k) = ws.countP (fun x => x.id == k) + 1 :=
        List.countP_cons_of_pos _ _ (by simp [hidk])
      have hz : ws.countP (fun w => w.id == k) = 0 := by omega
      have hnok : ∀ y ∈ ws, y.id ≠ k := by
        intro y hy
        have := List.countP_eq_zero.mp hz y hy
        simpa using this
      have hxw : x = w := by
        rcases List.mem_cons.mp hx with h | h
        · exact h
        · exact absurd hxk (hnok x h)
      have hv : ZG_Waypoints.inView v w.top w.bottom none = true := hxw ▸ hxv
      have hos : w.oneShot = true := hone w (List.mem_cons_self _ _) hidk
      intro w2 hw2
      simp only [ZG_Waypoints.updateLoop, hv, hos, if_true] at hw2
      exact hnok w2 ((updateLoop_sublist v ws).subset hw2)
    · have hxs : x ∈ ws := by
        rcases List.mem_cons.mp hx with h | h
        · exact absurd (h ▸ hxk) hidk
        · exact h
      have hc : (w :: ws).countP (fun x => x.id == k) = ws.countP (fun x => x.id == k) :=
        List.countP_cons_of_neg _ _ (by simp [hidk])
      have hcount2 : ws.countP (fun w => w.id == k) ≤ 1 := by omega
      have ih2 := ih hcount2 (fun y hy => hone y (List.mem_cons_of_mem _ hy))
        ⟨x, hxs, hxk, hxv⟩
      intro w2 hw2
      simp only [ZG_Waypoints.updateLoop] at hw2
      by_cases hv : ZG_Waypoints.inView v w.top w.bottom none = true
      · simp only [hv, if_true] at hw2
        rcases hos : w.oneShot with _ | _
        · simp only [hos] at hw2
          rcases List.mem_cons.mp hw2 with h | h
          · exact h ▸ hidk
          · exact ih2 w2 h
        · simp only [hos] at hw2
          exact ih2 w2 hw2
      · simp only [hv] at hw2
        simp only [if_false, Bool.false_eq_true, if_neg] at hw2
        rcases List.mem_cons.mp hw2 with h | h
        · exact h ▸ hidk
        · exact ih2 w2 h

/-! ## Claim C4 -/

/-- C4: a region registered with `oneShot = true` (and a unique callback
identity in the pending list) fires at most once across any sequence of
`update()` calls, and it is gone from the pending list right after the first
`update()` whose viewport had it in view. -/
theorem c4_oneShot_fires_at_most_once (s : ZG_Waypoints.SchedulerState) (k : Nat)
    (vs : List WindowView)
    (hcount : s.waypoints.countP (fun w => w.id == k) ≤ 1)
    (hone : ∀ w ∈ s.waypoints, w.id = k → w.oneShot = true) :
    (ZG_Waypoints.runUpdates vs s).1.count k ≤ 1 ∧
    ∀ v : WindowView,
      (∃ w ∈ s.waypoints, w.id = k ∧ ZG_Waypoints.inView v w.top w.bottom none = true) →
      ∀ w2 ∈ (ZG_Waypoints.update v s).2.waypoints, w2.id ≠ k := by
  constructor
  · have := runUpdates_count_le k vs s hone
    omega
  · intro v hin
    exact updateLoop_removes_unique_oneShot v k s.waypoints hcount hone hin

/-- Witness for C4: the one-shot waypoint `wp7` fires at most once over two
`update()` passes that both have it in view. -/
theorem c4_witness : (ZG_Waypoints.runUpdates [view0, view0] sched7).1.count 7 ≤ 1 :=
  (c4_oneShot_fires_at_most_once sched7 7 [view0, view0] (by decide) (by decide)).1

/-! ## Claim C7 -/

theorem runScrolls_of_not_subscribed (vs : List WindowView)
    (s : ZG_Waypoints.SchedulerState) (h : s.subscribed = false) :
    ZG_Waypoints.runScrolls vs s = ([], s) := by
  induction vs with
  | nil => rfl
  | cons v vs ih => simp [ZG_Waypoints.runScrolls, ZG_Waypoints.scrollEvent, h, ih]

/-- C7: an `update()` call that leaves the pending list empty also removes the
scroll subscription, and afterwards no number of further scroll events fires
any callback (until an `add` re-subscribes, which no scroll event does). -/
theorem c7_empty_update_unsubscribes (v : WindowView) (s : ZG_Waypoints.SchedulerState)
    (h : (ZG_Waypoints.update v s).2.waypoints = []) :
    (ZG_Waypoints.update v s).2.subscribed = false ∧
    ∀ vs : List WindowView,
      (ZG_Waypoints.runScrolls vs (ZG_Waypoints.update v s).2).1 = [] := by
  have h2 : (ZG_Waypoints.updateLoop v s.waypoints).2 = [] := h
  have hsub : (ZG_Waypoints.update v s).2.subscribed = false := by
    show (if (ZG_Waypoints.updateLoop v s.waypoints).2.isEmpty then false
          else s.subscribed) = false
    simp [h2]
  exact ⟨hsub, fun vs => by rw [runScrolls_of_not_subscribed vs _ hsub]⟩

/-- Witness for C7: emptying `sched7` by one in-view `update()` turns the
subscription off, and two further scroll events fire nothing. -/
theorem c7_witness :
    (ZG_Waypoints.update view0 sched7).2.subscribed = false ∧
    (ZG_Waypoints.runScrolls [view0, view0] (ZG_Waypoints.update view0 sched7).2).1 = [] := by
  have h := c7_empty_update_unsubscribes view0 sched7
    (by norm_num [ZG_Waypoints.update, ZG_Waypoints.updateLoop, ZG_Waypoints.inView,
      jsFalsyOr, sched7, wp7, view0])
  exact ⟨h.1, h.2 [view0, view0]⟩

/-! ## Claim C8 -/

/-- C8: within one `update()` pass, the callbacks of the in-view regions fire
in reverse registration order — the most recently added region first. -/
theorem c8_fires_in_reverse_registration_order (v : WindowView)
    (ws : List ZG_Waypoints.Waypoint)
    (h : ∀ w ∈ ws, w.hasCallback = true) :
    (ZG_Waypoints.updateLoop v ws).1 =
      ((ws.filter (fun w => ZG_Waypoints.inView v w.top w.bottom none)).map
        ZG_Waypoints.Waypoint.id).reverse := by
  induction ws with
  | nil => rfl
  | cons w ws ih =>
    have hw : w.hasCallback = true := h w (List.mem_cons_self _ _)
    have ih2 := ih (fun x hx => h x (List.mem_cons_of_mem _ hx))
    by_cases hv : ZG_Waypoints.inView v w.top w.bottom none = true
    · simp [ZG_Waypoints.updateLoop, List.filter_cons, hv, hw, ih2]
    · simp [ZG_Waypoints.updateLoop, List.filter_cons, hv, ih2]

/-- Witness for C8: with regions registered in the order id 1 then id 2, both
in view, the pass fires id 2 first. -/
theorem c8_witness : (ZG_Waypoints.updateLoop view0 wpPair).1 = [2, 1] := by
  rw [c8_fires_in_reverse_registration_order view0 wpPair (by decide)]
  norm_num [wpPair, view0, List.filter_cons, ZG_Waypoints.inView, jsFalsyOr]

/-! ## Controller scan lemmas -/

theorem checkForHiDPIElement_of_not_ready (scheme : PreloadScheme) (v : WindowView)
    (e : Elem) (h : hasClass e.classes "hidpi-ready" = false) :
    checkForHiDPIElement scheme v e = (e, ScanEffect.skip) := by
  simp [checkForHiDPIElement, h]

theorem checkForHiDPIElement_of_narrow (scheme : PreloadScheme) (v : WindowView)
    (e : Elem) (h : ¬ e.width > HIDPI_BREAKPOINT) :
    checkForHiDPIElement scheme v e = (e, ScanEffect.skip) := by
  simp [checkForHiDPIElement, h]

theorem scanElemRepeat_of_not_ready (scheme : PreloadScheme) (vs : List WindowView)
    (e : Elem) (h : hasClass e.classes "hidpi-ready" = false) :
    scanElemRepeat scheme vs e = (e, vs.map (fun _ => ScanEffect.skip)) := by
  induction vs with
  | nil => rfl
  | cons v vs ih => simp [scanElemRepeat, checkForHiDPIElement_of_not_ready scheme v e h, ih]

theorem scanElemRepeat_of_narrow (scheme : PreloadScheme) (vs : List WindowView)
    (e : Elem) (h : ¬ e.width > HIDPI_BREAKPOINT) :
    scanElemRepeat scheme vs e = (e, vs.map (fun _ => ScanEffect.skip)) := by
  induction vs with
  | nil => rfl
  | cons v vs ih => simp [scanElemRepeat, checkForHiDPIElement_of_narrow scheme v e h, ih]

theorem ready_absent_after_load_chain (cs : List String) :
    hasClass (addClass (removeClass (removeClass (removeClass cs "hidpi-ready")
      "hidpi-queued") "hidpi-pending") "hidpi-loading") "hidpi-ready" = false := by
  rw [hasClass_addClass_of_ne _ _ _ (by decide),
      hasClass_removeClass_of_ne _ _ _ (by decide),
      hasClass_removeClass_of_ne _ _ _ (by decide),
      hasClass_removeClass_self]

theorem ready_absent_after_defer_chain (cs : List String) :
    hasClass (addClass (removeClass cs "hidpi-ready") "hidpi-pending") "hidpi-ready" = false := by
  rw [hasClass_addClass_of_ne _ _ _ (by decide), hasClass_removeClass_self]

theorem checkForHiDPIElement_strips_ready (scheme : PreloadScheme) (v : WindowView)
    (e : Elem) (hr : hasClass e.classes "hidpi-ready" = true)
    (hw : e.width > HIDPI_BREAKPOINT) :
    hasClass (checkForHiDPIElement scheme v e).1.classes "hidpi-ready" = false := by
  have hwb : decide (e.width > HIDPI_BREAKPOINT) = true := decide_eq_true hw
  simp only [checkForHiDPIElement, hr, hwb, Bool.true_and, if_true]
  split
  · dsimp only [preloadHiDPIImage]
    exact ready_absent_after_load_chain e.classes
  · split
    · dsimp only
      exact hasClass_removeClass_self e.classes "hidpi-ready"
    · dsimp only
      exact ready_absent_after_defer_chain e.classes

theorem checkForHiDPIElement_lazy_effect (v : WindowView) (e : Elem)
    (hr : hasClass e.classes "hidpi-ready" = true)
    (hw : e.width > HIDPI_BREAKPOINT) :
    (checkForHiDPIElement PRELOAD_SCHEME v e).2 ≠ ScanEffect.skip := by
  have hwb : decide (e.width > HIDPI_BREAKPOINT) = true := decide_eq_true hw
  simp only [checkForHiDPIElement, hr, hwb, Bool.true_and, if_true, PRELOAD_SCHEME]
  split
  · simp
  · simp

theorem countP_skip_map (vs : List WindowView) :
    (vs.map (fun _ => ScanEffect.skip)).countP (fun eff => eff != ScanEffect.skip) = 0 := by
  induction vs with
  | nil => rfl
  | cons v vs ih => simp [ih]

/-! ## Claim C5 -/

/-- C5: `scan()` only acts on elements carrying the `hidpi-ready` marker — an
element without it (so any element in pending, loading, loaded or error
state) is returned untouched with no effect — and across repeated scan
passes an element undergoes at most one transition out of `ready`, exactly
one when it is eligible (ready and wider than the breakpoint), never one per
call. -/
theorem c5_scan_processes_ready_once (v : WindowView) (vs : List WindowView) (e : Elem) :
    (hasClass e.classes "hidpi-ready" = false →
      checkForHiDPIElement PRELOAD_SCHEME v e = (e, ScanEffect.skip)) ∧
    (scanElemRepeat PRELOAD_SCHEME (v :: vs) e).2.countP
      (fun eff => eff != ScanEffect.skip) ≤ 1 ∧
    (hasClass e.classes "hidpi-ready" = true → e.width > HIDPI_BREAKPOINT →
      (scanElemRepeat PRELOAD_SCHEME (v :: vs) e).2.countP
        (fun eff => eff != ScanEffect.skip) = 1) := by
  have hcons : (scanElemRepeat PRELOAD_SCHEME (v :: vs) e).2 =
      (checkForHiDPIElement PRELOAD_SCHEME v e).2 ::
      (scanElemRepeat PRELOAD_SCHEME vs (checkForHiDPIElement PRELOAD_SCHEME v e).1).2 := rfl
  have main : (hasClass e.classes "hidpi-ready" = true → e.width > HIDPI_BREAKPOINT →
      (scanElemRepeat PRELOAD_SCHEME (v :: vs) e).2.countP
        (fun eff => eff != ScanEffect.skip) = 1) ∧
      (scanElemRepeat PRELOAD_SCHEME (v :: vs) e).2.countP
        (fun eff => eff != ScanEffect.skip) ≤ 1 := by
    by_cases hr : hasClass e.classes "hidpi-ready" = true
    · by_cases hwd : e.width > HIDPI_BREAKPOINT
      · have h1 := checkForHiDPIElement_strips_ready PRELOAD_SCHEME v e hr hwd
        have h2 := checkForHiDPIElement_lazy_effect v e hr hwd
        have h3 := scanElemRepeat_of_not_ready PRELOAD_SCHEME vs _ h1
        have hc1 : (scanElemRepeat PRELOAD_SCHEME (v :: vs) e).2.countP
            (fun eff => eff != ScanEffect.skip) = 1 := by
          rw [hcons, h3, List.countP_cons_of_pos _ _ (by simpa using h2)]
          rw [countP_skip_map]
        exact ⟨fun _ _ => hc1, le_of_eq hc1⟩
      · have h0 := scanElemRepeat_of_narrow PRELOAD_SCHEME (v :: vs) e hwd
        have hc0 : (scanElemRepeat PRELOAD_SCHEME (v :: vs) e).2.countP
            (fun eff => eff != ScanEffect.skip) = 0 := by
          rw [h0]
          exact countP_skip_map (v :: vs)
        exact ⟨fun _ hw2 => absurd hw2 hwd, by omega⟩
    · have hrf : hasClass e.classes "hidpi-ready" = false := by simpa using hr
      have h0 := scanElemRepeat_of_not_ready PRELOAD_SCHEME (v :: vs) e hrf
      have hc0 : (scanElemRepeat PRELOAD_SCHEME (v :: vs) e).2.countP
          (fun eff => eff != ScanEffect.skip) = 0 := by
        rw [h0]
        exact countP_skip_map (v :: vs)
      exact ⟨fun hcon _ => absurd hcon hr, by omega⟩
  exact ⟨fun h => checkForHiDPIElement_of_not_ready _ _ _ h, main.2, main.1⟩

/-- Witness for C5: an element in the `loading` state is untouched by a scan
pass, and an eligible ready element scanned twice transitions exactly once. -/
theorem c5_witness :
    checkForHiDPIElement PRELOAD_SCHEME view0 divElemLoading = (divElemLoading, ScanEffect.skip) ∧
    (scanElemRepeat PRELOAD_SCHEME [view0, view0] imgElemReady).2.countP
      (fun eff => eff != ScanEffect.skip) = 1 := by
  refine ⟨(c5_scan_processes_ready_once view0 [] divElemLoading).1 (by decide),
          (c5_scan_processes_ready_once view0 [view0] imgElemReady).2.2 (by decide) ?_⟩
  norm_num [imgElemReady, HIDPI_BREAKPOINT]

/-! ## Claim C9 -/

/-- C9: an element whose width does not exceed the breakpoint is never
transitioned out of `ready` by any number of scan passes — the element is
returned unchanged (so its ready marker is intact) and no load or waypoint
registration is ever produced for it. -/
theorem c9_narrow_never_leaves_ready (scheme : PreloadScheme) (vs : List WindowView)
    (e : Elem) (h : e.width ≤ HIDPI_BREAKPOINT) :
    (scanElemRepeat scheme vs e).1 = e ∧
    (scanElemRepeat scheme vs e).2.countP (fun eff => eff != ScanEffect.skip) = 0 ∧
    hasClass (scanElemRepeat scheme vs e).1.classes "hidpi-ready" =
      hasClass e.classes "hidpi-ready" := by
  have h0 := scanElemRepeat_of_narrow scheme vs e (not_lt.mpr h)
  refine ⟨by rw [h0], ?_, by rw [h0]⟩
  rw [h0]
  exact countP_skip_map vs

/-- Witness for C9: a 800px-wide ready element survives a scan pass
unchanged. -/
theorem c9_witness :
    (scanElemRepeat PRELOAD_SCHEME [view0] imgElemNarrow).1 = imgElemNarrow :=
  (c9_narrow_never_leaves_ready PRELOAD_SCHEME [view0] imgElemNarrow
    (by norm_num [imgElemNarrow, HIDPI_BREAKPOINT])).1

/-! ## Claim C6 -/

/-- C6: the failure handler marks the element with the `hidpi-error` state;
for an element that has already left `ready` (as every element whose fetch
started has — the scan pass that started the load removed the marker), the
failure is terminal: every subsequent scan pass returns the errored element
unchanged and produces no load or waypoint registration, so no retry is ever
attempted.  (The `oneShot` waypoint that may have triggered the load was
already consumed when it fired, see `c4_oneShot_fires_at_most_once`.) -/
theorem c6_error_is_terminal (e : Elem) (h : hasClass e.classes "hidpi-ready" = false) :
    hasClass (hiDPIError e).classes "hidpi-error" = true ∧
    ∀ scheme : PreloadScheme, ∀ vs : List WindowView,
      scanElemRepeat scheme vs (hiDPIError e) =
        (hiDPIError e, vs.map (fun _ => ScanEffect.skip)) := by
  have hnr : hasClass (hiDPIError e).classes "hidpi-ready" = false := by
    simp only [hiDPIError]
    rw [hasClass_addClass_of_ne _ _ _ (by decide),
        hasClass_removeClass_of_ne _ _ _ (by decide)]
    exact h
  refine ⟨?_, fun scheme vs => scanElemRepeat_of_not_ready scheme vs _ hnr⟩
  simp only [hiDPIError]
  exact hasClass_addClass_self _ _

/-- Witness for C6: the errored container is marked `hidpi-error` and a
further scan pass leaves it alone. -/
theorem c6_witness :
    hasClass (hiDPIError divElemLoading).classes "hidpi-error" = true ∧
    scanElemRepeat PRELOAD_SCHEME [view0] (hiDPIError divElemLoading) =
      (hiDPIError divElemLoading, [ScanEffect.skip]) := by
  have h := c6_error_is_terminal divElemLoading (by decide)
  exact ⟨h.1, h.2 PRELOAD_SCHEME [view0]⟩

/-! ## Claim C1 -/

/-- C1: the claim fails on the code as written.  `hiDPILoaded` begins with
`var $parent = $item.parent` — the call parentheses are missing, so `$parent`
is the jQuery `parent` method itself — and for an IMG element the branch's
first statement `$parent.css( "position" )` invokes a member that does not
exist on a function value and throws a TypeError.  None of the claimed steps
happen: no overlay is inserted, the src is never swapped, the element is
never marked loaded, the `data-hidpi-src` attribute survives, and no fade is
started.  The handler's own doc comment describes the claimed (intended)
behaviour, so this is a slip in the code, not in the spec. -/
theorem c1_img_load_handler_throws :
    hiDPILoaded "hi.jpg" imgElemLoading =
      Except.error (JsError.typeError "css is not a function") := by
  rfl

/-! ## Claim C3 -/

/-- C3: the claim fails on the code.  `hiDPIError` removes the class token
`hidpi-processing` — a token no code path ever adds — while the class the
load start actually added is `hidpi-loading`; after a fetch failure the
element therefore carries two lifecycle-state markers at once,
`hidpi-loading` and `hidpi-error`.  The controller's own comment says the
state should resolve to `hidpi-loaded` or `hidpi-error`, so the stale token
name is a slip in the code. -/
theorem c3_error_leaves_two_state_classes :
    (hiDPIError divElemLoading).classes = ["hidpi-loading", "hidpi-error"] ∧
    lifecycleCount (hiDPIError divElemLoading).classes = 2 := by
  exact ⟨rfl, rfl⟩
